import Mathlib

/-
Verification of the gram2vec grammar feature vectorization engine
(src/gram2vec/featurizers.py and src/gram2vec/generate_vocab.py) against its
natural-language specification.

The Python code is shallowly embedded: Python dicts become insertion-ordered
association lists, Python Counters become association lists from keys to
counts in first-occurrence order, Python sets whose iteration order matters
are modelled either as Finsets (when persisted) or as an explicit ordering
parameter constrained to be a permutation of the element list (when iterated),
and fallible Python code returns Except values tagged with the exception kind
the interpreter would raise.
-/

set_option autoImplicit false

/-- Kinds of Python exceptions raised by the modelled code paths. -/
inductive PyErr where
  | typeError
  | valueError
  | keyError (name : String)
  | nameError (name : String)
  | attributeError (name : String)
  | indexError
  | assertionError
  deriving DecidableEq, Repr

/-- First-match association-list lookup, the model of Python dict lookup
(Python dicts are insertion ordered and keys are unique). -/
def alookup {K V : Type} [DecidableEq K] : List (K × V) → K → Option V
  | [], _ => none
  | p :: ps, k => if p.1 = k then some p.2 else alookup ps k

/-- Number of occurrences of a key in a list. -/
def lcount {K : Type} [DecidableEq K] (l : List K) (k : K) : Nat :=
  (l.filter (fun x => decide (x = k))).length

/-- Monadic map over Except, stopping at the first error, the model of a
Python loop whose body may raise. -/
def mapME {A B : Type} (f : A → Except PyErr B) : List A → Except PyErr (List B)
  | [] => .ok []
  | a :: l =>
    match f a with
    | .error e => .error e
    | .ok b =>
      match mapME f l with
      | .error e => .error e
      | .ok bs => .ok (b :: bs)

/-- Keys of a Python dict built by inserting the elements of a list in order:
first occurrence of each key, in order of first occurrence.  The seen
accumulator holds keys already emitted. -/
def pyDictKeysAux {K : Type} [DecidableEq K] (seen : List K) : List K → List K
  | [] => []
  | a :: l =>
    if a ∈ seen then pyDictKeysAux seen l
    else a :: pyDictKeysAux (a :: seen) l

/-- Keys of the Python dict obtained by inserting the list elements in order. -/
def pyDictKeys {K : Type} [DecidableEq K] (l : List K) : List K :=
  pyDictKeysAux [] l

/-- Model of collections.Counter applied to a list: an association list from
each distinct element (in first-occurrence order, as Python dicts are
insertion ordered) to its number of occurrences. -/
def counterOf {K : Type} [DecidableEq K] (l : List K) : List (K × Nat) :=
  (pyDictKeys l).map (fun k => (k, lcount l k))

/-- Count stored in a Counter for a key: the stored value, or 0 when absent
(Counter returns 0 for missing keys). -/
def counterCount {K : Type} [DecidableEq K] (c : List (K × Nat)) (k : K) : Nat :=
  (alookup c k).getD 0

/-- Model of del counter on a Counter key: the key is removed.  The source
wraps the del in a try block that swallows a KeyError, so a missing key is a
no-op, which filtering also models. -/
def pyDel {K : Type} [DecidableEq K] (c : List (K × Nat)) (k : K) : List (K × Nat) :=
  c.filter (fun p => decide (p.1 ≠ k))

/-- Adjacent pairs of a list, the model of nltk.bigrams. -/
def adjacentPairs {A : Type} : List A → List (A × A)
  | [] => []
  | [_] => []
  | a :: b :: l => (a, b) :: adjacentPairs (b :: l)

/-- Model of a Python two-variable unpacking of a dict, as in the featurizer
line that binds counts and doc features to the result of get_counts: iterating
a dict yields its keys, and unpacking succeeds exactly when there are two of
them, otherwise a ValueError is raised. -/
def unpack2 {K : Type} : List (K × Int) → Except PyErr (K × K)
  | [a, b] => .ok (a.1, b.1)
  | _ => .error .valueError

/-- The second argument of get_counts in featurizers.py: some call sites pass
a plain Python list of observed features, others pass a Counter built from the
document. -/
inductive PyFeatures (K : Type) where
  | plainList (xs : List K)
  | counterDict (d : List (K × Int))

/-- Model of the Python membership test on the doc_features argument. -/
def PyFeatures.containsKey {K : Type} [DecidableEq K] : PyFeatures K → K → Bool
  | .plainList xs, k => decide (k ∈ xs)
  | .counterDict d, k => (alookup d k).isSome

/-- Model of the Python subscript doc_features applied to a feature key.
Subscripting a list with a non-integer key raises TypeError; a Counter returns
the stored count, or 0 when the key is absent. -/
def PyFeatures.getitem {K : Type} [DecidableEq K] : PyFeatures K → K → Except PyErr Int
  | .plainList _, _ => .error .typeError
  | .counterDict d, k => .ok ((alookup d k).getD 0)

/-- One iteration of the loop body of get_counts for a single vocabulary
feature: look the feature up in doc_features when present, else take the zero
from the vocabulary-to-zero dict. -/
def getCountsStep {K : Type} [DecidableEq K] (doc_features : PyFeatures K) (feat : K) :
    Except PyErr (K × Int) :=
  if doc_features.containsKey feat then
    match doc_features.getitem feat with
    | .error e => .error e
    | .ok c => .ok (feat, c)
  else .ok (feat, 0)

/-- Model of get_counts in featurizers.py.  It builds the dict mapping each
vocabulary feature to 0, then walks its keys, replacing the zero by the
subscripted doc_features value when the membership test succeeds, and returns
the resulting dict (not a pair, and not a list). -/
def get_counts {K : Type} [DecidableEq K] (vocab : List K) (doc_features : PyFeatures K) :
    Except PyErr (List (K × Int)) :=
  mapME (getCountsStep doc_features) (pyDictKeys vocab)

/-- The punctuation-mark vocabulary of the punc featurizer, transcribed from
the set literal in featurizers.py in source order.  Being a Python set, its
iteration order is not fixed by the source; theorems about it quantify over an
arbitrary permutation of this list. -/
def PUNC_MARKS : List String :=
  [".", ",", ":", ";", "\x27", "\"", "?", "!", "`", "*", "&", "_", "-", "%",
   "(", ")", "–", "‘", "’"]

/-- Model of the extraction step of the punc featurizer: every character of
every token, kept when it is a punctuation mark.  The document is modelled by
its token text sequence, which is what iterating the document yields. -/
def doc_punc_marks (tokens : List String) : List String :=
  tokens.flatMap (fun t =>
    (t.toList.filter (fun c => decide (Char.toString c ∈ PUNC_MARKS))).map Char.toString)

/-- Model of the punc featurizer up to the two-variable unpacking of the
get_counts result.  The later lines of the source (building the numpy array
and asserting its length) are unreachable: the unpacking of a dict succeeds
only with exactly two keys, and the punctuation vocabulary has nineteen. -/
def punc_model (order : List String) (tokens : List String) :
    Except PyErr (String × String) :=
  match get_counts order (.plainList (doc_punc_marks tokens)) with
  | .error e => .error e
  | .ok cd => unpack2 cd

/-- The dependency-label vocabulary of the dep_labels featurizer, transcribed
from the set literal in featurizers.py in source order. -/
def DEP_LABELS_VOCAB : List String :=
  ["ROOT", "acl", "acomp", "advcl", "advmod", "agent", "amod", "appos", "attr",
   "aux", "auxpass", "case", "cc", "ccomp", "compound", "conj", "csubj",
   "csubjpass", "dative", "dep", "det", "dobj", "expl", "intj", "mark", "meta",
   "neg", "nmod", "npadvmod", "nsubj", "nsubjpass", "nummod", "oprd",
   "parataxis", "pcomp", "pobj", "poss", "preconj", "predet", "prep", "prt",
   "punct", "quantmod", "relcl", "xcomp"]

/-- Model of the dep_labels featurizer up to the two-variable unpacking of the
get_counts result, as a function of the iteration order of its vocabulary set
and of the document dependency-label list.  The division of the counts by the
number of labels and the length assertion in the source are unreachable: the
unpacking of the forty-five-entry dict always fails first, and with any label
of the vocabulary present in the document get_counts fails even earlier. -/
def dep_labels_model (order : List String) (document_dep_labels : List String) :
    Except PyErr (String × String) :=
  match get_counts order (.plainList document_dep_labels) with
  | .error e => .error e
  | .ok cd => unpack2 cd

/-- The curated emoji vocabulary of the common_emojis featurizer, transcribed
from the set literal in featurizers.py in source order. -/
def EMOJI_VOCAB : List String :=
  ["😅", "😂", "😊", "❤️", "😭", "👍", "👌", "😍", "💕", "🥰"]

/-- The open-class coarse part-of-speech tags, transcribed from the module
constant OPEN_CLASS in featurizers.py. -/
def OPEN_CLASS : List String := ["ADJ", "ADV", "NOUN", "VERB", "INTJ"]

/-- The black-box emoji library interface (demoji): replaceAll models
demoji.replace with the empty replacement, findall models
demoji.findall_list. -/
structure EmojiLib where
  replaceAll : String → String
  findall : String → List String

/-- The data the external spaCy pipeline derives from one input text. -/
structure ParsedInfo where
  tokens : List String
  pos_tags : List String
  dep_labels : List String
  spans : List (Nat × Nat)

/-- Model of the Document dataclass of featurizers.py.  Its fields are
raw_text, doc, tokens, pos_tags, dep_labels and sentences; the stored spaCy
doc is represented by the text it was parsed from (its text attribute) and the
sentences by their start and end token indices, which is all the modelled code
reads from them. -/
structure PyDocument where
  raw_text : String
  spacy_text : String
  tokens : List String
  pos_tags : List String
  dep_labels : List String
  spans : List (Nat × Nat)

/-- Model of make_document in featurizers.py: the raw input text is stored
unmodified, and the parser runs on the demojified text. -/
def make_document (lib : EmojiLib) (nlp : String → ParsedInfo) (text : String) :
    PyDocument :=
  let parsed := nlp (lib.replaceAll text)
  { raw_text := text
    spacy_text := lib.replaceAll text
    tokens := parsed.tokens
    pos_tags := parsed.pos_tags
    dep_labels := parsed.dep_labels
    spans := parsed.spans }

/-- Model of Python attribute access for string-valued attributes of the
Document dataclass.  The dataclass declares exactly the fields raw_text, doc,
tokens, pos_tags, dep_labels and sentences; raw_text is its only string-valued
field, and access to any name outside the declared fields raises
AttributeError.  In particular text is not a field of Document. -/
def documentGetStrAttr (d : PyDocument) (attr : String) : Except PyErr String :=
  if attr = "raw_text" then .ok d.raw_text
  else .error (.attributeError attr)

/-- Model of the common_emojis featurizer up to the two-variable unpacking of
the get_counts result: it reads the text attribute of its document argument,
extracts emojis from it, keeps those in the curated vocabulary, and projects
with get_counts. -/
def common_emojis_model (lib : EmojiLib) (d : PyDocument) :
    Except PyErr (String × String) :=
  match documentGetStrAttr d "text" with
  | .error e => .error e
  | .ok t =>
    let emojis := (lib.findall t).filter (fun x => decide (x ∈ EMOJI_VOCAB))
    match get_counts EMOJI_VOCAB (.plainList emojis) with
    | .error e => .error e
    | .ok cd => unpack2 cd

/-- Model of get_sentence_spans in featurizers.py: the start and end token
index of each sentence, in sentence order. -/
def get_sentence_spans (d : PyDocument) : List (Nat × Nat) := d.spans

/-- Boundary markers emitted before position i: one BOS for each span starting
at i and one EOS for each span ending at i, tested in span order with the BOS
test first, exactly as the inner loop of insert_pos_sentence_boundaries. -/
def boundaryMarkers (spans : List (Nat × Nat)) (i : Nat) : List String :=
  spans.filterMap (fun se =>
    if i = se.1 then some "BOS" else if i = se.2 then some "EOS" else none)

/-- The enumeration loop of insert_pos_sentence_boundaries over an arbitrary
item list: markers for the current index, then the item itself. -/
def withBoundariesAux (spans : List (Nat × Nat)) (i : Nat) : List String → List String
  | [] => []
  | t :: ts => boundaryMarkers spans i ++ t :: withBoundariesAux spans (i + 1) ts

/-- Insertion of sentence-boundary markers into an item sequence, with the
unconditional trailing EOS of the source. -/
def insertBoundariesOf (items : List String) (spans : List (Nat × Nat)) : List String :=
  withBoundariesAux spans 0 items ++ ["EOS"]

/-- Model of insert_pos_sentence_boundaries in featurizers.py.  Its docstring
says it inserts sentence boundaries into the list of POS tags, but its loop
enumerates doc.tokens and appends each surface token. -/
def insert_pos_sentence_boundaries (d : PyDocument) : List String :=
  insertBoundariesOf d.tokens (get_sentence_spans d)

/-- Model of count_document_pos_bigrams in featurizers.py: Counter over the
adjacent pairs of the boundary-inserted sequence, with the artificial pair
EOS before BOS deleted. -/
def count_document_pos_bigrams (d : PyDocument) : List ((String × String) × Nat) :=
  pyDel (counterOf (adjacentPairs (insert_pos_sentence_boundaries d))) ("EOS", "BOS")

/-- Modelled from the claim wording: the same boundary insertion and bigram
counting applied to the per-document POS-tag sequence instead of the token
sequence, for comparison with the source behaviour. -/
def claim_pos_bigrams (d : PyDocument) : List ((String × String) × Nat) :=
  pyDel (counterOf (adjacentPairs (insertBoundariesOf d.pos_tags (get_sentence_spans d))))
    ("EOS", "BOS")

/-- Model of replace_openclass in featurizers.py: walk the token indices in
order, replacing the token by its POS tag when the tag is open class; an
IndexError is raised at the first index with no POS tag when the tag list is
shorter than the token list. -/
def replace_openclass : List String → List String → Except PyErr (List String)
  | [], _ => .ok []
  | _ :: _, [] => .error .indexError
  | t :: ts, p :: ps =>
    match replace_openclass ts ps with
    | .error e => .error e
    | .ok r => .ok ((if p ∈ OPEN_CLASS then p else t) :: r)

/-- Model of count_document_mixed_bigrams in featurizers.py: Counter over the
adjacent pairs of the open-class-replaced token sequence. -/
def count_document_mixed_bigrams (d : PyDocument) :
    Except PyErr (List ((String × String) × Nat)) :=
  match replace_openclass d.tokens d.pos_tags with
  | .error e => .error e
  | .ok l => .ok (counterOf (adjacentPairs l))

/-- Modelled from the claim wording: the token sequence in which every token
whose POS tag is open class is replaced by its POS tag and every other token
keeps its surface form. -/
def claim_mixed_tokens (tokens pos : List String) : List String :=
  List.zipWith (fun t p => if p ∈ OPEN_CLASS then p else t) tokens pos

/-- The largest stored count in a counter (0 when empty). -/
def maxCountVal {K : Type} (c : List (K × Nat)) : Nat :=
  c.foldr (fun p m => max p.2 m) 0

/-- Fuelled selection of the n highest-count entries: repeatedly take the
first entry carrying the maximal count and remove it.  This is the stable
descending order of Counter.most_common, with ties broken by dict insertion
order, i.e. by first encounter. -/
def mostCommonFuel {K : Type} [DecidableEq K] : Nat → Nat → List (K × Nat) → List (K × Nat)
  | 0, _, _ => []
  | _, 0, _ => []
  | fuel + 1, n + 1, c =>
    match c.find? (fun p => decide (maxCountVal c ≤ p.2)) with
    | none => []
    | some p => p :: mostCommonFuel fuel n (c.eraseP (fun q => decide (maxCountVal c ≤ q.2)))

/-- Model of Counter.most_common with an explicit count argument. -/
def mostCommon {K : Type} [DecidableEq K] (n : Nat) (c : List (K × Nat)) : List (K × Nat) :=
  mostCommonFuel c.length n c

/-- Model of Counter addition: entries of the left counter with the counts of
the right added, followed by the entries only in the right counter, keeping
positive counts. -/
def counterAdd {K : Type} [DecidableEq K] (a b : List (K × Nat)) : List (K × Nat) :=
  (a.map (fun p => (p.1, p.2 + (alookup b p.1).getD 0))).filter (fun p => decide (0 < p.2))
    ++ b.filter (fun p => (alookup a p.1).isNone && decide (0 < p.2))

/-- Model of the persisted mining artifact of GrammarVectorizer._generate_vocab:
the per-document counters are summed, the fifty most common entries are taken,
their keys are collected, and the result is converted to a Python set before
being pickled.  A set carries no ordering, so the artifact is a Finset: the
descending-frequency order of most_common is discarded at this point. -/
def generate_vocab_artifact {K : Type} [DecidableEq K]
    (counter_list : List (List (K × Nat))) : Finset K :=
  ((mostCommon 50 (counter_list.foldl counterAdd [])).map Prod.fst).toFinset

/-- The names bound at module level in featurizers.py (imports, constants,
type aliases, functions and classes), transcribed from the source in order of
appearance.  Name resolution of a global reference inside a method of the
module consults exactly these names (plus builtins). -/
def featurizers_module_names : List String :=
  ["Counter", "deepcopy", "dataclass", "demoji", "bigrams", "np", "os",
   "spacy", "toml", "Iterable", "utils", "feature_logger", "OPEN_CLASS",
   "Counts", "SentenceSpan", "Document", "make_document", "demojify_text",
   "get_counts", "get_sentence_spans", "insert_pos_sentence_boundaries",
   "replace_openclass", "count_document_pos_unigrams",
   "count_document_pos_bigrams", "count_document_func_words",
   "count_document_punctuation", "count_document_letters",
   "count_document_emojis", "count_document_dep_labels",
   "count_document_mixed_bigrams", "pos_unigrams", "pos_bigrams",
   "func_words", "punc", "letters", "common_emojis", "doc_vector",
   "dep_labels", "mixed_bigrams", "CountBasedFeaturizer", "FeatureVector",
   "GrammarVectorizer"]

/-- The global names referenced by the body of
GrammarVectorizer._generate_vocab, transcribed from the source: the extraction
helpers get_pos_bigrams and get_mixed_bigrams are among them, and a reference
that matches neither a module-level name nor a builtin raises NameError when
evaluated. -/
def generate_vocab_global_refs : List String :=
  ["utils", "os", "get_pos_bigrams", "get_mixed_bigrams", "Counter", "dict", "set"]

/-- The names of the nine registered featurizers, in the insertion order of
the featurizers dict built in GrammarVectorizer.__init__.  Python dicts
preserve insertion order, so every iteration over the registry uses this
order. -/
def featurizer_names : List String :=
  ["pos_unigrams", "pos_bigrams", "func_words", "punc", "letters",
   "common_emojis", "doc_vector", "dep_labels", "mixed_bigrams"]

/-- The loop of GrammarVectorizer._config over a list of registry names: each
registered name is looked up in the parsed config, a missing name raises
KeyError with that name, and names mapped to 1 are selected in registry
order. -/
def config_select_aux (toml : List (String × Int)) : List String → Except PyErr (List String)
  | [] => .ok []
  | n :: ns =>
    match alookup toml n with
    | none => .error (.keyError n)
    | some v =>
      match config_select_aux toml ns with
      | .error e => .error e
      | .ok rest => .ok (if v = 1 then n :: rest else rest)

/-- Model of GrammarVectorizer._config: the parsed Features table of
config.toml is consulted once per registered featurizer, in registry order.
This runs when vectorize calls it; the constructor never reads the
configuration. -/
def config_select (toml : List (String × Int)) : Except PyErr (List String) :=
  config_select_aux toml featurizer_names

/-- Numeric values of sub-vector entries.  Only finiteness matters to the
claims about the orchestrator, and no modelled code path reaches a division,
so finite values carry an integer. -/
inductive PyFloat where
  | finite (x : Int)
  | posInf
  | negInf
  | nan
  deriving DecidableEq, Repr

/-- Whether a value is the floating NaN. -/
def PyFloat.isNan : PyFloat → Bool
  | .nan => true
  | _ => false

/-- Whether a value is finite (neither NaN nor an infinity). -/
def PyFloat.isFinite : PyFloat → Bool
  | .finite _ => true
  | _ => false

/-- Model of np.isnan(vector).any(): true when some entry is NaN.  Infinite
entries are not NaN and do not trigger it. -/
def npIsnanAny : List PyFloat → Bool
  | [] => false
  | x :: xs => x.isNan || npIsnanAny xs

/-- One iteration of the vectorize loop for one enabled featurizer, given the
sub-vector each featurizer produces: run it, then assert that no entry is
NaN. -/
def subvectorStep (F : String → Except PyErr (List PyFloat)) (n : String) :
    Except PyErr (List PyFloat) :=
  match F n with
  | .error e => .error e
  | .ok v => if npIsnanAny v then .error .assertionError else .ok v

/-- Model of GrammarVectorizer.vectorize as a function of the per-featurizer
sub-vector outcomes F: read the configuration, run each selected featurizer
with the NaN assertion, and concatenate the sub-vectors
(np.concatenate raises ValueError on an empty list). -/
def vectorize_model (F : String → Except PyErr (List PyFloat))
    (toml : List (String × Int)) : Except PyErr (List PyFloat) :=
  match config_select toml with
  | .error e => .error e
  | .ok sel =>
    match mapME (subvectorStep F) sel with
    | .error e => .error e
    | .ok vectors => if vectors.isEmpty then .error .valueError else .ok vectors.flatten

/-- The enabled counter names in the order the configuration declares them. -/
def declaredEnabled (toml : List (String × Int)) : List String :=
  (toml.filter (fun p => decide (p.2 = 1))).map Prod.fst

/-- Modelled from the claim wording: the vector built by concatenating the
enabled sub-vectors in configuration-declared order, for comparison with the
source behaviour. -/
def declaredOrderResult (F : String → Except PyErr (List PyFloat))
    (toml : List (String × Int)) : Except PyErr (List PyFloat) :=
  match mapME (subvectorStep F) (declaredEnabled toml) with
  | .error e => .error e
  | .ok vectors => if vectors.isEmpty then .error .valueError else .ok vectors.flatten

/-- Single-scalar members of the curated emoji set, used by the concrete
instantiation of the black-box emoji library. -/
def toyEmojiChars : List Char :=
  ['😅', '😂', '😊', '😭', '👍', '👌', '😍', '💕', '🥰']

/-- Concrete emoji removal for the toy library: drop curated emoji
characters. -/
def toyReplaceAll (s : String) : String :=
  String.mk (s.toList.filter (fun c => !(toyEmojiChars.contains c)))

/-- Concrete emoji extraction for the toy library: the curated emoji
characters of the text, in order. -/
def toyFindall (s : String) : List String :=
  (s.toList.filter (fun c => toyEmojiChars.contains c)).map Char.toString

/-- A concrete instantiation of the black-box emoji library. -/
def toyEmojiLib : EmojiLib :=
  { replaceAll := toyReplaceAll, findall := toyFindall }

/-- A concrete parser stub; the parse contents are irrelevant to the emoji
claims. -/
def toyNlp : String → ParsedInfo := fun _ => ⟨[], [], [], []⟩

/-- Concrete one-sentence document: tokens of the text with their POS tags and
the single sentence span. -/
def docOneSentence : PyDocument :=
  { raw_text := "I run.", spacy_text := "I run.",
    tokens := ["I", "run", "."], pos_tags := ["PRON", "VERB", "PUNCT"],
    dep_labels := ["nsubj", "ROOT", "punct"], spans := [(0, 3)] }

/-- Concrete two-sentence document used for the boundary-exclusion check. -/
def docTwoSentences : PyDocument :=
  { raw_text := "I run. You walk.", spacy_text := "I run. You walk.",
    tokens := ["I", "run", ".", "You", "walk", "."],
    pos_tags := ["PRON", "VERB", "PUNCT", "PRON", "VERB", "PUNCT"],
    dep_labels := ["nsubj", "ROOT", "punct", "nsubj", "ROOT", "punct"],
    spans := [(0, 3), (3, 6)] }

/-- A configuration assigning 1 to every registered featurizer, in registry
order. -/
def tomlComplete : List (String × Int) := featurizer_names.map (fun n => (n, 1))

/-- A configuration enabling punc and pos_unigrams, declaring punc first. -/
def tomlPuncFirst : List (String × Int) :=
  [("punc", 1), ("pos_unigrams", 1), ("pos_bigrams", 0), ("func_words", 0),
   ("letters", 0), ("common_emojis", 0), ("doc_vector", 0), ("dep_labels", 0),
   ("mixed_bigrams", 0)]

/-- The same configuration with the two enabled entries declared in the other
order. -/
def tomlPosFirst : List (String × Int) :=
  [("pos_unigrams", 1), ("punc", 1), ("pos_bigrams", 0), ("func_words", 0),
   ("letters", 0), ("common_emojis", 0), ("doc_vector", 0), ("dep_labels", 0),
   ("mixed_bigrams", 0)]

/-- Distinguishable sub-vector outcomes for the order counterexample: each
featurizer yields a one-entry vector tagging its identity. -/
def demoFeaturizerOut : String → Except PyErr (List PyFloat) := fun n =>
  .ok [PyFloat.finite (if n = "pos_unigrams" then 1 else if n = "punc" then 2 else 0)]

/-- A single token containing every punctuation mark of the vocabulary. -/
def allMarksToken : String := ".,:;\x27\"?!`*&_-%()–‘’"

/-- Concrete per-document counters for the mining counterexample: two
documents, one POS bigram seen three times in total and another seen once. -/
def minedCountersExample : List (List ((String × String) × Nat)) :=
  [[(("NOUN", "VERB"), 2)], [(("NOUN", "VERB"), 1), (("VERB", "PUNCT"), 1)]]

/-- A single open-class witness document for the mixed-bigram claim. -/
def docOpenClass : PyDocument :=
  { raw_text := "the dog runs", spacy_text := "the dog runs",
    tokens := ["the", "dog", "runs"], pos_tags := ["DET", "NOUN", "VERB"],
    dep_labels := ["det", "nsubj", "ROOT"], spans := [(0, 3)] }

deriving instance DecidableEq for Except

theorem pyDictKeysAux_mem {K : Type} [DecidableEq K] :
    ∀ (l seen : List K) (a : K), a ∈ pyDictKeysAux seen l ↔ (a ∈ l ∧ a ∉ seen) := by
  intro l
  induction l with
  | nil => intro seen a; simp [pyDictKeysAux]
  | cons b l ih =>
    intro seen a
    by_cases hb : b ∈ seen
    · rw [pyDictKeysAux, if_pos hb, ih]
      constructor
      · rintro ⟨h1, h2⟩
        exact ⟨List.mem_cons_of_mem b h1, h2⟩
      · rintro ⟨h1, h2⟩
        rcases List.mem_cons.mp h1 with rfl | h1
        · exact absurd hb h2
        · exact ⟨h1, h2⟩
    · rw [pyDictKeysAux, if_neg hb]
      simp only [List.mem_cons, ih (b :: seen) a]
      constructor
      · rintro (rfl | ⟨h1, h2⟩)
        · exact ⟨Or.inl rfl, hb⟩
        · exact ⟨Or.inr h1, fun hs => h2 (Or.inr hs)⟩
      · rintro ⟨rfl | h1, h2⟩
        · exact Or.inl rfl
        · by_cases hab : a = b
          · exact Or.inl hab
          · exact Or.inr ⟨h1, fun hs => hs.elim hab h2⟩

theorem pyDictKeys_mem {K : Type} [DecidableEq K] (l : List K) (a : K) :
    a ∈ pyDictKeys l ↔ a ∈ l := by
  rw [pyDictKeys, pyDictKeysAux_mem]
  simp

theorem pyDictKeysAux_eq_self {K : Type} [DecidableEq K] :
    ∀ (l seen : List K), l.Nodup → (∀ a ∈ l, a ∉ seen) → pyDictKeysAux seen l = l := by
  intro l
  induction l with
  | nil => intro seen _ _; rfl
  | cons b l ih =>
    intro seen hnd hsep
    have hb : b ∉ seen := hsep b (List.mem_cons_self b l)
    rw [pyDictKeysAux, if_neg hb]
    have hnd2 := List.nodup_cons.mp hnd
    congr 1
    refine ih (b :: seen) hnd2.2 ?_
    intro a ha hs
    rcases List.mem_cons.mp hs with rfl | hs
    · exact hnd2.1 ha
    · exact hsep a (List.mem_cons_of_mem b ha) hs

theorem pyDictKeys_eq_self {K : Type} [DecidableEq K] (l : List K) (h : l.Nodup) :
    pyDictKeys l = l :=
  pyDictKeysAux_eq_self l [] h (by simp)

theorem lcount_eq_zero {K : Type} [DecidableEq K] (l : List K) (k : K) (h : k ∉ l) :
    lcount l k = 0 := by
  rw [lcount, List.length_eq_zero, List.filter_eq_nil_iff]
  intro a ha
  simp only [decide_eq_true_eq]
  rintro rfl
  exact h ha

theorem alookup_map_self {K V : Type} [DecidableEq K] (f : K → V) :
    ∀ (ks : List K) (k : K),
      alookup (ks.map (fun x => (x, f x))) k = if k ∈ ks then some (f k) else none := by
  intro ks
  induction ks with
  | nil => intro k; simp [alookup]
  | cons a l ih =>
    intro k
    by_cases hak : a = k
    · subst hak
      simp [alookup]
    · rw [List.map_cons, alookup, if_neg hak, ih]
      by_cases hkl : k ∈ l
      · rw [if_pos hkl, if_pos (List.mem_cons_of_mem a hkl)]
      · have hncons : k ∉ a :: l := by
          intro h
          rcases List.mem_cons.mp h with rfl | h
          · exact hak rfl
          · exact hkl h
        rw [if_neg hkl, if_neg hncons]

theorem counterCount_counterOf {K : Type} [DecidableEq K] (l : List K) (k : K) :
    counterCount (counterOf l) k = lcount l k := by
  rw [counterCount, counterOf, alookup_map_self]
  by_cases h : k ∈ pyDictKeys l
  · rw [if_pos h]
    rfl
  · rw [if_neg h, Option.getD_none, lcount_eq_zero]
    intro hl
    exact h ((pyDictKeys_mem l k).mpr hl)

theorem unpack2_isOk_iff {K : Type} :
    ∀ cd : List (K × Int), (unpack2 cd).isOk = true ↔ cd.length = 2 := by
  intro cd
  match cd with
  | [] => simp [unpack2, Except.isOk, Except.toBool]
  | [a] => simp [unpack2, Except.isOk, Except.toBool]
  | [a, b] => simp [unpack2, Except.isOk, Except.toBool]
  | a :: b :: c :: t =>
    simp only [unpack2, Except.isOk, Except.toBool, List.length_cons]
    constructor
    · intro h
      cases h
    · intro h
      omega

theorem unpack2_err_of_len {K : Type} (cd : List (K × Int)) (h : cd.length ≠ 2) :
    unpack2 cd = .error PyErr.valueError := by
  match cd with
  | [] => rfl
  | [a] => rfl
  | [a, b] => exact absurd rfl h
  | a :: b :: c :: t => rfl

theorem mapME_getCountsStep_list_err {K : Type} [DecidableEq K] :
    ∀ (ks fs : List K), (∃ v, v ∈ ks ∧ v ∈ fs) →
      mapME (getCountsStep (PyFeatures.plainList fs)) ks = .error PyErr.typeError := by
  intro ks
  induction ks with
  | nil =>
    rintro fs ⟨v, hv, _⟩
    cases hv
  | cons a l ih =>
    rintro fs ⟨v, hv, hf⟩
    by_cases ha : a ∈ fs
    · simp [mapME, getCountsStep, PyFeatures.containsKey, PyFeatures.getitem, ha]
    · rcases List.mem_cons.mp hv with rfl | hvl
      · exact absurd hf ha
      · simp [mapME, getCountsStep, PyFeatures.containsKey, PyFeatures.getitem, ha,
          ih fs ⟨v, hvl, hf⟩]

theorem mapME_getCountsStep_list_absent {K : Type} [DecidableEq K] :
    ∀ (ks fs : List K), (∀ v ∈ ks, v ∉ fs) →
      mapME (getCountsStep (PyFeatures.plainList fs)) ks =
        .ok (ks.map (fun k => (k, (0 : Int)))) := by
  intro ks
  induction ks with
  | nil => intro fs _; rfl
  | cons a l ih =>
    intro fs h
    have ha : a ∉ fs := h a (List.mem_cons_self a l)
    simp [mapME, getCountsStep, PyFeatures.containsKey, PyFeatures.getitem, ha,
      ih fs (fun v hv => h v (List.mem_cons_of_mem a hv))]

theorem mapME_getCountsStep_dict {K : Type} [DecidableEq K] :
    ∀ (ks : List K) (d : List (K × Int)),
      mapME (getCountsStep (PyFeatures.counterDict d)) ks =
        .ok (ks.map (fun k => (k, (alookup d k).getD 0))) := by
  intro ks
  induction ks with
  | nil => intro d; rfl
  | cons a l ih =>
    intro d
    rcases hl : alookup d a with _ | v
    · simp [mapME, getCountsStep, PyFeatures.containsKey, PyFeatures.getitem, hl, ih d]
    · simp [mapME, getCountsStep, PyFeatures.containsKey, PyFeatures.getitem, hl, ih d]

theorem get_counts_plainList_error {K : Type} [DecidableEq K]
    (vocab fs : List K) (v : K) (hv : v ∈ vocab) (hf : v ∈ fs) :
    get_counts vocab (.plainList fs) = .error PyErr.typeError := by
  rw [get_counts]
  exact mapME_getCountsStep_list_err _ fs ⟨v, (pyDictKeys_mem vocab v).mpr hv, hf⟩

theorem get_counts_plainList_absent {K : Type} [DecidableEq K]
    (vocab fs : List K) (h : ∀ v ∈ vocab, v ∉ fs) :
    get_counts vocab (.plainList fs) =
      .ok ((pyDictKeys vocab).map (fun k => (k, (0 : Int)))) := by
  rw [get_counts]
  exact mapME_getCountsStep_list_absent _ fs
    (fun v hv => h v ((pyDictKeys_mem vocab v).mp hv))

theorem replace_openclass_eq :
    ∀ ts ps : List String, ts.length = ps.length →
      replace_openclass ts ps = .ok (claim_mixed_tokens ts ps) := by
  intro ts
  induction ts with
  | nil =>
    intro ps _
    simp [replace_openclass, claim_mixed_tokens]
  | cons t ts ih =>
    intro ps h
    cases ps with
    | nil => simp at h
    | cons p ps =>
      have hlen : ts.length = ps.length := by simpa using h
      simp [replace_openclass, claim_mixed_tokens, ih ps hlen, List.zipWith]

theorem config_select_aux_isOk_iff (toml : List (String × Int)) :
    ∀ ns : List String,
      (∃ v, config_select_aux toml ns = .ok v) ↔
        ∀ n ∈ ns, (alookup toml n).isSome = true := by
  intro ns
  induction ns with
  | nil => simp [config_select_aux]
  | cons n ns ih =>
    rcases hn : alookup toml n with _ | v
    · simp [config_select_aux, hn]
    · rcases hrec : config_select_aux toml ns with e | rest
      · have hno : ¬∃ v, config_select_aux toml ns = .ok v := by
          rw [hrec]; rintro ⟨v, hv⟩; cases hv
        simp only [config_select_aux, hn, hrec]
        constructor
        · rintro ⟨v, hv⟩; cases hv
        · intro h
          exact absurd (ih.mpr (fun m hm => h m (List.mem_cons_of_mem n hm))) hno
      · have hyes : ∃ v, config_select_aux toml ns = .ok v := ⟨rest, hrec⟩
        simp only [config_select_aux, hn, hrec]
        constructor
        · intro _ m hm
          rcases List.mem_cons.mp hm with rfl | hm
          · rw [hn]; rfl
          · exact (ih.mp hyes) m hm
        · intro _
          exact ⟨_, rfl⟩

theorem config_select_aux_filter (toml : List (String × Int)) :
    ∀ ns : List String, (∀ n ∈ ns, (alookup toml n).isSome = true) →
      config_select_aux toml ns =
        .ok (ns.filter (fun n => decide (alookup toml n = some 1))) := by
  intro ns
  induction ns with
  | nil => intro _; rfl
  | cons n ns ih =>
    intro h
    rcases hn : alookup toml n with _ | v
    · have := h n (List.mem_cons_self n ns)
      rw [hn] at this
      cases this
    · rw [config_select_aux, hn, ih (fun m hm => h m (List.mem_cons_of_mem n hm))]
      by_cases hv : v = 1
      · subst hv
        simp [List.filter_cons, hn]
      · have : ¬(alookup toml n = some 1) := by
          rw [hn]
          intro hc
          exact hv (Option.some.inj hc)
        simp [List.filter_cons, hv, this]

theorem config_select_aux_congr (t1 t2 : List (String × Int)) :
    ∀ ns : List String, (∀ n ∈ ns, alookup t1 n = alookup t2 n) →
      config_select_aux t1 ns = config_select_aux t2 ns := by
  intro ns
  induction ns with
  | nil => intro _; rfl
  | cons n ns ih =>
    intro h
    rw [config_select_aux, config_select_aux, h n (List.mem_cons_self n ns),
      ih (fun m hm => h m (List.mem_cons_of_mem n hm))]

theorem alookup_append_not_key {K V : Type} [DecidableEq K] (e : K × V) :
    ∀ (toml : List (K × V)) (k : K), k ≠ e.1 → alookup (toml ++ [e]) k = alookup toml k := by
  intro toml
  induction toml with
  | nil =>
    intro k hk
    have : e.1 ≠ k := fun h => hk h.symm
    simp [alookup, this]
  | cons p ps ih =>
    intro k hk
    by_cases hp : p.1 = k
    · simp [alookup, hp]
    · simp [alookup, hp, ih k hk]

/-- C1: the claim states that for every enabled counter, projecting the
document counts against the vocabulary yields a sequence whose length equals
the vocabulary length, for every document.  For the cited punc counter this
fails on the code: whatever iteration order the vocabulary set has, the empty
document makes the two-variable unpacking of the nineteen-entry get_counts
dict raise ValueError, and a document containing every vocabulary mark makes
get_counts itself raise TypeError by subscripting the list of observed marks
with a string key; no length-nineteen sequence is ever produced. -/
theorem punc_projection_crashes (order : List String) (horder : order.Perm PUNC_MARKS) :
    punc_model order [] = .error PyErr.valueError ∧
    punc_model order [allMarksToken] = .error PyErr.typeError := by
  have hnodup : order.Nodup := horder.nodup_iff.mpr (by decide)
  constructor
  · have h2 : get_counts order (.plainList (doc_punc_marks [])) =
        .ok (order.map (fun k => (k, (0 : Int)))) := by
      have habs : ∀ v ∈ order, v ∉ doc_punc_marks [] := by
        intro v _ hmem
        simp [doc_punc_marks] at hmem
      rw [get_counts_plainList_absent order _ habs, pyDictKeys_eq_self order hnodup]
    rw [punc_model, h2]
    refine unpack2_err_of_len _ ?_
    rw [List.length_map, horder.length_eq]
    decide
  · have hmarks : doc_punc_marks [allMarksToken] = PUNC_MARKS := by decide
    have hdot : "." ∈ order := horder.mem_iff.mpr (by decide)
    rw [punc_model, hmarks, get_counts_plainList_error order PUNC_MARKS "." hdot (by decide)]

/-- Witness for C1 at the source-order iteration of the vocabulary set. -/
theorem punc_projection_crashes_witness :
    punc_model PUNC_MARKS [] = .error PyErr.valueError ∧
    punc_model PUNC_MARKS [allMarksToken] = .error PyErr.typeError :=
  punc_projection_crashes PUNC_MARKS (List.Perm.refl PUNC_MARKS)

/-- C2: the claim ends with the punctuation example where the vocabulary is
the three marks period, comma, exclamation and the document tokens are Hi,
comma, world and two exclamation marks, expecting the projected vector
0, 1, 2.  On the code the extraction step does produce the expected observed
marks (comma once, exclamation twice), but get_counts then finds the comma in
the observed list and subscripts the list with the string, raising TypeError,
so the projected vector is never produced. -/
theorem punc_example_projection_crashes :
    get_counts [".", ",", "!"]
        (.plainList (doc_punc_marks ["Hi", ",", "world", "!", "!"])) =
      .error PyErr.typeError ∧
    doc_punc_marks ["Hi", ",", "world", "!", "!"] = [",", "!", "!"] ∧
    lcount [",", "!", "!"] "," = 1 ∧
    lcount [",", "!", "!"] "!" = 2 := by
  refine ⟨by decide, by decide, by decide, by decide⟩

/-- C3: the claim states POS bigrams are adjacent pairs of the POS-tag
sequence with BOS and EOS markers inserted, and that no EOS-BOS pair is ever
counted.  The exclusion of the EOS-BOS pair does hold (the code deletes it),
but the code builds the sequence from the surface tokens, not the POS tags,
contradicting the docstring of insert_pos_sentence_boundaries: on the
one-sentence document the counted bigrams are token pairs such as BOS-I, and
the POS pair BOS-PRON that the claim requires has count zero. -/
theorem pos_bigrams_built_from_tokens_not_pos :
    count_document_pos_bigrams docOneSentence =
      [(("BOS", "I"), 1), (("I", "run"), 1), (("run", "."), 1), ((".", "EOS"), 1)] ∧
    count_document_pos_bigrams docOneSentence ≠ claim_pos_bigrams docOneSentence ∧
    counterCount (count_document_pos_bigrams docOneSentence) ("BOS", "PRON") = 0 ∧
    counterCount (claim_pos_bigrams docOneSentence) ("BOS", "PRON") = 1 ∧
    counterCount (count_document_pos_bigrams docTwoSentences) ("EOS", "BOS") = 0 ∧
    counterCount (claim_pos_bigrams docTwoSentences) ("EOS", "BOS") = 0 := by
  refine ⟨by decide, by decide, by decide, by decide, by decide, by decide⟩

/-- C4: the claim states that mining is deterministic with the persisted
vocabulary in descending-frequency order, stable across processes and
machines.  On the code this fails twice.  First, the mining loop calls
get_pos_bigrams and get_mixed_bigrams, global names bound nowhere in the
module, so the first run with a missing vocabulary file raises NameError.
Second, even granting the extraction, the artifact that is pickled is the
Python set of the most_common keys: the descending order is discarded, and
two distinct vocabulary orders are consistent with the same persisted
artifact, so the loaded iteration order is left to hashing. -/
theorem vocab_mining_artifact_unordered :
    mostCommon 50 (minedCountersExample.foldl counterAdd []) =
      [(("NOUN", "VERB"), 3), (("VERB", "PUNCT"), 1)] ∧
    generate_vocab_artifact minedCountersExample =
      ([("NOUN", "VERB"), ("VERB", "PUNCT")] : List (String × String)).toFinset ∧
    ([("NOUN", "VERB"), ("VERB", "PUNCT")] : List (String × String)) ≠
      [("VERB", "PUNCT"), ("NOUN", "VERB")] ∧
    ([("VERB", "PUNCT"), ("NOUN", "VERB")] : List (String × String)).toFinset =
      generate_vocab_artifact minedCountersExample ∧
    "get_pos_bigrams" ∉ featurizers_module_names ∧
    "get_mixed_bigrams" ∉ featurizers_module_names ∧
    "get_pos_bigrams" ∈ generate_vocab_global_refs ∧
    "get_mixed_bigrams" ∈ generate_vocab_global_refs := by
  refine ⟨by decide, by decide, by decide, by decide, by decide, by decide, by decide, by decide⟩

/-- C5 counterexample: the claim states that a configuration referencing an
unregistered counter name makes construction fail with a configuration error,
and that a configuration referencing only registered names never raises
during vectorize.  On the code the configuration is only ever read inside
vectorize, a configuration carrying the unregistered name bogus is accepted
without any error, and a configuration whose entries are all registered names
raises KeyError at vectorize time because a registered name is missing. -/
theorem config_unknown_name_silently_ok :
    config_select (tomlComplete ++ [("bogus", 1)]) = .ok featurizer_names ∧
    config_select [("pos_unigrams", 1)] = .error (PyErr.keyError "pos_bigrams") := by
  refine ⟨by decide, by decide⟩

/-- C5 amended: the configuration is read at vectorize time, never at
construction; reading succeeds exactly when every registered featurizer name
is present in the configuration, and appending an entry whose name is not a
registered featurizer leaves the outcome unchanged (unknown names are
silently ignored). -/
theorem config_select_semantics :
    (∀ toml : List (String × Int),
      (∃ v, config_select toml = .ok v) ↔
        ∀ n ∈ featurizer_names, (alookup toml n).isSome = true) ∧
    (∀ (toml : List (String × Int)) (e : String × Int),
      e.1 ∉ featurizer_names → config_select (toml ++ [e]) = config_select toml) := by
  constructor
  · intro toml
    exact config_select_aux_isOk_iff toml featurizer_names
  · intro toml e he
    refine config_select_aux_congr _ _ featurizer_names ?_
    intro n hn
    refine alookup_append_not_key e toml n ?_
    rintro rfl
    exact he hn

/-- Witness for C5 amended at a complete configuration and the unregistered
entry bogus. -/
theorem config_select_semantics_witness :
    config_select (tomlComplete ++ [("bogus", 1)]) = config_select tomlComplete ∧
    (∃ v, config_select tomlComplete = .ok v) :=
  ⟨config_select_semantics.2 tomlComplete ("bogus", 1) (by decide),
   (config_select_semantics.1 tomlComplete).mpr (by decide)⟩

/-- C6 counterexample: the claim states the orchestrator rejects, before
concatenation, any sub-vector containing a non-finite value, so that
vectorize never returns a vector with a non-finite entry, and that a counter
dividing by a count signals an error on the empty document instead of
emitting NaN or Inf.  On the code the vectorize assertion tests only
np.isnan, so a sub-vector holding positive infinity passes the check and is
returned, and the dep_labels counter on the zero-token document fails with
ValueError while unpacking the forty-five-entry get_counts dict, before its
normalization ever runs. -/
theorem orchestrator_accepts_inf_vector :
    vectorize_model (fun _ => .ok [PyFloat.posInf]) tomlComplete =
      .ok (List.replicate 9 PyFloat.posInf) ∧
    PyFloat.posInf.isFinite = false ∧
    npIsnanAny [PyFloat.posInf] = false ∧
    dep_labels_model DEP_LABELS_VOCAB [] = .error PyErr.valueError := by
  refine ⟨by decide, by decide, by decide, by decide⟩

/-- C6 amended: the vectorize assertion rejects exactly the sub-vectors
containing a NaN entry (infinities pass), and the dep_labels counter never
reaches its division-based normalization: for every iteration order of its
vocabulary set and every document label sequence it raises, with TypeError
when some vocabulary label occurs in the document and ValueError from the
dict unpacking otherwise, so the empty document raises rather than emitting
NaN or Inf. -/
theorem nan_check_and_dep_labels_always_error :
    (∀ v : List PyFloat, npIsnanAny v = false ↔ ∀ x ∈ v, x.isNan = false) ∧
    (∀ order dls : List String, order.Perm DEP_LABELS_VOCAB →
      ∃ e, dep_labels_model order dls = .error e) := by
  constructor
  · intro v
    induction v with
    | nil => simp [npIsnanAny]
    | cons x xs ih => simp [npIsnanAny, Bool.or_eq_false_iff, ih]
  · intro order dls hperm
    by_cases hc : ∃ v, v ∈ order ∧ v ∈ dls
    · rcases hc with ⟨v, hv, hf⟩
      refine ⟨PyErr.typeError, ?_⟩
      rw [dep_labels_model, get_counts_plainList_error order dls v hv hf]
    · push_neg at hc
      have hnodup : order.Nodup := hperm.nodup_iff.mpr (by decide)
      have h2 : get_counts order (.plainList dls) =
          .ok (order.map (fun k => (k, (0 : Int)))) := by
        rw [get_counts_plainList_absent order dls hc, pyDictKeys_eq_self order hnodup]
      refine ⟨PyErr.valueError, ?_⟩
      rw [dep_labels_model, h2]
      refine unpack2_err_of_len _ ?_
      rw [List.length_map, hperm.length_eq]
      decide

/-- Witness for C6 amended at the source-order vocabulary and a one-label
document. -/
theorem nan_check_and_dep_labels_always_error_witness :
    (npIsnanAny [PyFloat.nan] = false ↔ ∀ x ∈ [PyFloat.nan], x.isNan = false) ∧
    (∃ e, dep_labels_model DEP_LABELS_VOCAB ["nsubj"] = .error e) :=
  ⟨nan_check_and_dep_labels_always_error.1 [PyFloat.nan],
   nan_check_and_dep_labels_always_error.2 DEP_LABELS_VOCAB ["nsubj"]
     (List.Perm.refl DEP_LABELS_VOCAB)⟩

/-- C7 counterexample: the claim states the returned vector is the
concatenation of the enabled sub-vectors in configuration-declared order, so
that declaring punc before pos_unigrams and the reverse produce different
layouts.  On the code the loop follows the registry insertion order of the
nine featurizers: the two declarations produce identical vectors with the
pos_unigrams segment first, and the vector differs from the
declared-order concatenation the claim describes. -/
theorem vectorize_ignores_declared_order :
    vectorize_model demoFeaturizerOut tomlPuncFirst =
      .ok [PyFloat.finite 1, PyFloat.finite 2] ∧
    vectorize_model demoFeaturizerOut tomlPosFirst =
      .ok [PyFloat.finite 1, PyFloat.finite 2] ∧
    declaredEnabled tomlPuncFirst = ["punc", "pos_unigrams"] ∧
    declaredOrderResult demoFeaturizerOut tomlPuncFirst =
      .ok [PyFloat.finite 2, PyFloat.finite 1] ∧
    vectorize_model demoFeaturizerOut tomlPuncFirst ≠
      declaredOrderResult demoFeaturizerOut tomlPuncFirst := by
  refine ⟨by decide, by decide, by decide, by decide, by decide⟩

/-- C7 amended: the configuration read selects the enabled counters in the
fixed registry order of the nine featurizers whenever every registered name
is present, and the vectorize outcome depends only on the name-to-flag
mapping of the configuration, not on the order in which the configuration
declares its entries; each enabled segment is the output of that featurizer
alone, so only positions, fixed by registry order, can differ. -/
theorem vectorize_order_semantics :
    (∀ toml : List (String × Int),
      (∀ n ∈ featurizer_names, (alookup toml n).isSome = true) →
      config_select toml =
        .ok (featurizer_names.filter (fun n => decide (alookup toml n = some 1)))) ∧
    (∀ (F : String → Except PyErr (List PyFloat)) (t1 t2 : List (String × Int)),
      (∀ n ∈ featurizer_names, alookup t1 n = alookup t2 n) →
      vectorize_model F t1 = vectorize_model F t2) := by
  constructor
  · intro toml h
    exact config_select_aux_filter toml featurizer_names h
  · intro F t1 t2 h
    rw [vectorize_model, vectorize_model, config_select, config_select,
      config_select_aux_congr t1 t2 featurizer_names h]

/-- Witness for C7 amended at the two concrete declaration orders. -/
theorem vectorize_order_semantics_witness :
    config_select tomlPuncFirst =
      .ok (featurizer_names.filter (fun n => decide (alookup tomlPuncFirst n = some 1))) ∧
    vectorize_model demoFeaturizerOut tomlPuncFirst =
      vectorize_model demoFeaturizerOut tomlPosFirst :=
  ⟨vectorize_order_semantics.1 tomlPuncFirst (by decide),
   vectorize_order_semantics.2 demoFeaturizerOut tomlPuncFirst tomlPosFirst (by decide)⟩

/-- C8: the claim states the adapter strips emojis before invoking the parser
while storing the original text unmodified, and that the common-emojis
counter extracts its multiset from that original raw text.  The adapter half
holds: make_document stores the raw text and parses the demojified text.  The
counter half fails on the code: common_emojis reads the text attribute of its
document argument, which the Document dataclass does not declare, raising
AttributeError; and the only text attribute in reach, that of the stored
spaCy doc, is the demojified parser input, from which extraction finds no
emoji at all, as the last conjunct shows on the concrete text. -/
theorem common_emojis_attribute_error :
    (make_document toyEmojiLib toyNlp "hi 😂").raw_text = "hi 😂" ∧
    (make_document toyEmojiLib toyNlp "hi 😂").spacy_text = "hi " ∧
    common_emojis_model toyEmojiLib (make_document toyEmojiLib toyNlp "hi 😂") =
      .error (PyErr.attributeError "text") ∧
    toyFindall "hi 😂" = ["😂"] ∧
    toyFindall ((make_document toyEmojiLib toyNlp "hi 😂").spacy_text) = [] := by
  refine ⟨by decide, by decide, by decide, by decide, by decide⟩

/-- C9: for every document whose token and POS sequences have equal length
(the Annotated Document invariant), the mixed-bigram counter returns the
Counter of the adjacent pairs of the sequence in which each open-class token
is replaced by its POS tag and every other token keeps its surface form, and
that Counter assigns every pair exactly its number of occurrences among the
adjacent pairs. -/
theorem mixed_bigrams_follow_spec (d : PyDocument)
    (h : d.tokens.length = d.pos_tags.length) :
    count_document_mixed_bigrams d =
      .ok (counterOf (adjacentPairs (claim_mixed_tokens d.tokens d.pos_tags))) ∧
    ∀ b : String × String,
      counterCount (counterOf (adjacentPairs (claim_mixed_tokens d.tokens d.pos_tags))) b =
        lcount (adjacentPairs (claim_mixed_tokens d.tokens d.pos_tags)) b := by
  constructor
  · rw [count_document_mixed_bigrams, replace_openclass_eq d.tokens d.pos_tags h]
  · intro b
    exact counterCount_counterOf _ b

/-- Witness for C9 at a concrete open-class document. -/
theorem mixed_bigrams_follow_spec_witness :
    count_document_mixed_bigrams docOpenClass =
      .ok (counterOf (adjacentPairs (claim_mixed_tokens docOpenClass.tokens docOpenClass.pos_tags))) ∧
    counterCount (counterOf (adjacentPairs
      (claim_mixed_tokens docOpenClass.tokens docOpenClass.pos_tags))) ("NOUN", "VERB") = 1 := by
  refine ⟨(mixed_bigrams_follow_spec docOpenClass rfl).1, ?_⟩
  rw [(mixed_bigrams_follow_spec docOpenClass rfl).2 ("NOUN", "VERB")]
  decide

/-- C10: get_counts returns a single dict keyed by the vocabulary items in
first-occurrence order, not a pair; consequently the two-variable unpacking
every featurizer performs succeeds exactly when the (duplicate-free)
vocabulary has two items; and whenever doc_features is a plain list
containing some vocabulary item, get_counts raises TypeError by subscripting
the list with that non-integer key. -/
theorem get_counts_dict_shape :
    (∀ (vocab : List String) (d : List (String × Int)),
      get_counts vocab (.counterDict d) =
        .ok ((pyDictKeys vocab).map (fun k => (k, (alookup d k).getD 0)))) ∧
    (∀ (vocab : List String) (d : List (String × Int)), vocab.Nodup →
      ∃ cd, get_counts vocab (.counterDict d) = .ok cd ∧
        ((unpack2 cd).isOk = true ↔ vocab.length = 2)) ∧
    (∀ (vocab fs : List String) (v : String), v ∈ vocab → v ∈ fs →
      get_counts vocab (.plainList fs) = .error PyErr.typeError) := by
  refine ⟨?_, ?_, ?_⟩
  · intro vocab d
    rw [get_counts]
    exact mapME_getCountsStep_dict (pyDictKeys vocab) d
  · intro vocab d hn
    refine ⟨_, by rw [get_counts]; exact mapME_getCountsStep_dict (pyDictKeys vocab) d, ?_⟩
    rw [unpack2_isOk_iff, List.length_map, pyDictKeys_eq_self vocab hn]
  · exact get_counts_plainList_error

/-- Witness for C10: the dict shape at the spec example vocabulary a, b, c
with counts 5 for a and 2 for c, the two-item unpacking, and the TypeError
on a present list item. -/
theorem get_counts_dict_shape_witness :
    get_counts ["a", "b", "c"] (.counterDict [("a", 5), ("c", 2)]) =
      .ok [("a", 5), ("b", 0), ("c", 2)] ∧
    (∃ cd, get_counts ["x", "y"] (.counterDict []) = .ok cd ∧
      ((unpack2 cd).isOk = true ↔ (["x", "y"] : List String).length = 2)) ∧
    get_counts [":"] (.plainList [":"]) = .error PyErr.typeError := by
  refine ⟨?_, ?_, ?_⟩
  · exact (get_counts_dict_shape.1 ["a", "b", "c"] [("a", 5), ("c", 2)]).trans (by decide)
  · exact get_counts_dict_shape.2.1 ["x", "y"] [] (by decide)
  · exact get_counts_dict_shape.2.2 [":"] [":"] ":" (by decide) (by decide)
